import Mathlib

/-!
Verification development for the prwlock library
(src/prwlock/prwlock.py): a cross-process read-write lock backed by a
shared one-page memory mapping over the POSIX pthread rwlock primitive.

The Python module is shallowly embedded below.  Pure arithmetic and
bookkeeping become Lean functions; the native pthread calls are
abstracted by their integer return codes, supplied as inputs to each
model; the effect of a call sequence (which native functions get
invoked, in which order, and which cleanup actions get attempted) is
made explicit as data so ordering and guarding properties can be
stated and decided.
-/

namespace PRWLock

/-! ### Platform descriptor (prwlock.py lines 13-43)

The module-level platform probe fixes the byte sizes of the native
`pthread_rwlock_t` and `pthread_rwlockattr_t` blocks and the value of
`PTHREAD_PROCESS_SHARED` for the host platform.  Each supported
(OS, architecture) combination becomes one constructor. -/

inductive OSPlatform where
  | darwin      -- Darwin: lock 200 bytes, attr 24 bytes (lines 13-17)
  | linux64     -- Linux 64-bit: lock 56 bytes (line 25)
  | linux32     -- Linux 32-bit: lock 32 bytes (line 27)
  | linuxOther  -- Linux, other word width: lock 44 bytes (line 29)
  | freebsd     -- FreeBSD: lock 8 bytes (line 32)
  | openbsd     -- OpenBSD: lock 8 bytes (line 35)
  | cygwin      -- Cygwin: lock 8 bytes (line 38)
  deriving DecidableEq, Repr

/-- Size in bytes of `pthread_rwlock_t` (lines 16, 25, 27, 29, 32, 35, 38). -/
def lockBlockSize : OSPlatform → Nat
  | .darwin => 200
  | .linux64 => 56
  | .linux32 => 32
  | .linuxOther => 44
  | .freebsd => 8
  | .openbsd => 8
  | .cygwin => 8

/-- Size in bytes of `pthread_rwlockattr_t`: 24 on Darwin (line 17),
8 everywhere else (line 21). -/
def attrBlockSize : OSPlatform → Nat
  | .darwin => 24
  | _ => 8

/-- Value of `PTHREAD_PROCESS_SHARED` (lines 15, 23, 31, 34, 37). -/
def PTHREAD_PROCESS_SHARED : OSPlatform → Nat
  | .darwin => 1
  | .linux64 => 1
  | .linux32 => 1
  | .linuxOther => 1
  | .freebsd => 0
  | .openbsd => 0
  | .cygwin => 0

/-- The lock control block is taken with `pthread_rwlock_t.from_buffer(buf)`
at the start of the page (line 200), i.e. at byte offset 0. -/
def lockOffset : Nat := 0

/-- The attribute control block is taken with
`pthread_rwlockattr_t.from_buffer(buf, offset)` where
`offset = ctypes.sizeof(pthread_rwlock_t)` (lines 199, 202). -/
def attrOffset (p : OSPlatform) : Nat := lockBlockSize p

/-! ### errno constants (Linux values; the native timed path is the
Linux path, since Darwin lacks the timed functions) -/

def ETIMEDOUT : Nat := 110
def EBUSY : Nat := 16
def EDEADLK : Nat := 35
def EINVAL : Nat := 22

/-! ### Native binding (prwlock.py lines 46-76, 85-89)

`API` is the module-level list of (function name, declared argument
types) pairs (lines 46-56); we record the argument-type count.  At
module load time every function in `API` gets its argument types and
the uniform `error_check` installed (lines 75-76).  When the host has the
timed lock functions, lines 86-89 additionally augment
`pthread_rwlock_tryrdlock` and `pthread_rwlock_trywrlock` (with the
two-argument signature of the timed functions) — those are the names
actually written in the source; the timed functions themselves are
never augmented. -/

def API : List (String × Nat) :=
  [("pthread_rwlock_destroy", 1),
   ("pthread_rwlock_init", 2),
   ("pthread_rwlock_unlock", 1),
   ("pthread_rwlock_wrlock", 1),
   ("pthread_rwlock_tryrdlock", 1),
   ("pthread_rwlock_trywrlock", 1),
   ("pthread_rwlockattr_destroy", 1),
   ("pthread_rwlockattr_init", 1),
   ("pthread_rwlockattr_setpshared", 2)]

/-- Names augmented by the timed-path probe block, exactly as written at
lines 86-89 of the source. -/
def timedPathAugmented : List String :=
  ["pthread_rwlock_tryrdlock", "pthread_rwlock_trywrlock"]

/-- Every function name that ever receives an `errcheck` at module load
(lines 75-76 and 86-89). -/
def augmentedNames : List String := API.map Prod.fst ++ timedPathAugmented

/-- Whether `librt.<name>` has the uniform error check installed. -/
def hasErrcheck (name : String) : Bool := augmentedNames.contains name

/-- `error_check` (lines 59-64): a return code outside
{0, ETIMEDOUT, EBUSY} raises `OSError(result, name ...)`; otherwise the
call's result passes through. -/
def error_check (result : Nat) (name : String) : Except (Nat × String) Nat :=
  if result = 0 ∨ result = ETIMEDOUT ∨ result = EBUSY then Except.ok result
  else Except.error (result, name)

/-- A call to `librt.<name>` whose raw return code is `ret`: the
installed `errcheck` runs exactly when the name was augmented. -/
def callNative (name : String) (ret : Nat) : Except (Nat × String) Nat :=
  if hasErrcheck name then error_check ret name else Except.ok ret

/-! ### Native timed path (prwlock.py lines 85-118)

`_pthread_rwlock_timedrdlock` / `_pthread_rwlock_timedwrlock`
(lines 105-115) call `librt.pthread_rwlock_timedrdlock` /
`librt.pthread_rwlock_timedwrlock` and map a return of ETIMEDOUT to
False (not acquired) and anything else to True (acquired).  The
wrapped native functions go through `callNative`, which installs the
error check only if the name was augmented. -/

def timedrdlock_native (nativeRet : Nat) : Except (Nat × String) Bool := do
  let r ← callNative "pthread_rwlock_timedrdlock" nativeRet
  if r = ETIMEDOUT then pure false else pure true

def timedwrlock_native (nativeRet : Nat) : Except (Nat × String) Bool := do
  let r ← callNative "pthread_rwlock_timedwrlock" nativeRet
  if r = ETIMEDOUT then pure false else pure true

/-! ### Theorems for C1 and C2 -/

/-- C1 (code_bug evidence).  On the native timed path the timed
wrappers map ETIMEDOUT to not-acquired and success to acquired, but a
return of EINVAL (22) — or any other error code — is also reported as
acquired, because no error check is installed on
`pthread_rwlock_timedrdlock` / `pthread_rwlock_timedwrlock`: the
augmentation at lines 86-89 names the try functions instead (while
passing the two-argument signature of the timed functions). -/
theorem C1_timed_error_codes :
    timedrdlock_native 0 = Except.ok true
    ∧ timedrdlock_native ETIMEDOUT = Except.ok false
    ∧ timedrdlock_native EINVAL = Except.ok true
    ∧ timedwrlock_native EINVAL = Except.ok true
    ∧ hasErrcheck "pthread_rwlock_timedrdlock" = false
    ∧ hasErrcheck "pthread_rwlock_timedwrlock" = false := by
  refine ⟨rfl, rfl, rfl, rfl, rfl, rfl⟩

/-! ### RWLock acquisition and release bookkeeping
(prwlock.py lines 165-277)

`RWLockPosix.__init__` sets `nlocks = 0` (line 171).  `acquire_read` /
`acquire_write` (lines 255-269): with no timeout, call the blocking
native lock; with a timeout, call the selected timed function and
return False on timeout without touching `nlocks`; otherwise increment
`nlocks` and return True.  `release` (lines 271-277): raise ValueError
when `nlocks == 0` (before any native call), otherwise call the native
unlock and decrement.

Each native interaction is an input to the step function: the raw
return code of a blocking call, or the outcome of the timed function
(acquired / timed out / an OSError escaping from an error-checked try
call on the emulated path).  The step result records the new `nlocks`,
the outcome visible to the caller, and the blocking/unlock native
functions invoked. -/

inductive TimedRes where
  | ok                  -- timed function returned True
  | timedOut            -- timed function returned False
  | raised (code : Nat) -- an OSError escaped from inside the timed function
  deriving DecidableEq, Repr

inductive Ev where
  | acqReadBlocking (ret : Nat)   -- acquire_read(timeout=None), native return ret
  | acqWriteBlocking (ret : Nat)  -- acquire_write(timeout=None), native return ret
  | acqReadTimed (res : TimedRes) -- acquire_read(timeout=t), timed_rdlock outcome
  | acqWriteTimed (res : TimedRes)
  | rel (ret : Nat)               -- release(), native unlock return ret
  deriving DecidableEq, Repr

inductive StepOut where
  | acquired      -- returned True
  | notAcquired   -- returned False
  | releasedOk    -- release returned normally
  | invalidState  -- release raised ValueError
  | fatal (code : Nat) -- an OSError propagated to the caller
  deriving DecidableEq, Repr

/-- One public call on an `RWLockPosix` whose `nlocks` is `n`: the new
`nlocks`, the outcome, and the names of the blocking/unlock native
functions invoked through `librt`.  Note `pthread_rwlock_rdlock`
(line 257) is absent from `API`, so its return code is never
error-checked and the call always falls through to `nlocks += 1`;
`pthread_rwlock_wrlock` (line 265) and `pthread_rwlock_unlock`
(line 276) are error-checked. -/
def step (n : Int) (e : Ev) : Int × StepOut × List String :=
  match e with
  | .acqReadBlocking _ =>
      -- line 257: return code discarded, no errcheck installed
      (n + 1, .acquired, ["pthread_rwlock_rdlock"])
  | .acqWriteBlocking ret =>
      match callNative "pthread_rwlock_wrlock" ret with
      | .ok _ => (n + 1, .acquired, ["pthread_rwlock_wrlock"])
      | .error (c, _) => (n, .fatal c, ["pthread_rwlock_wrlock"])
  | .acqReadTimed res =>
      match res with
      | .ok => (n + 1, .acquired, [])
      | .timedOut => (n, .notAcquired, [])  -- line 258-259: early return False
      | .raised c => (n, .fatal c, [])
  | .acqWriteTimed res =>
      match res with
      | .ok => (n + 1, .acquired, [])
      | .timedOut => (n, .notAcquired, [])
      | .raised c => (n, .fatal c, [])
  | .rel ret =>
      if n = 0 then
        (n, .invalidState, [])  -- lines 272-275: raise before any native call
      else
        match callNative "pthread_rwlock_unlock" ret with
        | .ok _ => (n - 1, .releasedOk, ["pthread_rwlock_unlock"])
        | .error (c, _) => (n, .fatal c, ["pthread_rwlock_unlock"])

/-- `nlocks` after a sequence of public calls on a freshly constructed
lock (`__init__` sets `nlocks = 0`, line 171). -/
def runEvents (evs : List Ev) : Int :=
  evs.foldl (fun n e => (step n e).1) 0

theorem step_nonneg (n : Int) (e : Ev) (h : 0 ≤ n) : 0 ≤ (step n e).1 := by
  cases e with
  | acqReadBlocking ret => simp only [step]; omega
  | acqWriteBlocking ret =>
      simp only [step]
      cases callNative "pthread_rwlock_wrlock" ret with
      | ok v => simpa using by omega
      | error p => cases p with | mk c s => simpa using h
  | acqReadTimed res => cases res <;> simp only [step] <;> omega
  | acqWriteTimed res => cases res <;> simp only [step] <;> omega
  | rel ret =>
      simp only [step]
      by_cases hn : n = 0
      · simp [hn]
      · simp only [if_neg hn]
        cases callNative "pthread_rwlock_unlock" ret with
        | ok v => simpa using by omega
        | error p => cases p with | mk c s => simpa using h

theorem foldl_step_nonneg (evs : List Ev) :
    ∀ n : Int, 0 ≤ n → 0 ≤ evs.foldl (fun m e => (step m e).1) n := by
  induction evs with
  | nil => intro n h; simpa using h
  | cons e tl ih =>
      intro n h
      simpa using ih (step n e).1 (step_nonneg n e h)

/-! ### Theorem for C2 -/

/-- C2 (code_bug evidence).  The blocking acquire-for-read at line 257
invokes `pthread_rwlock_rdlock`, which is missing from the `API`
augmentation list, so it carries no argument types and no error check:
a failing native return code (EINVAL here) is silently ignored and the
call still reports "acquired".  The blocking write path and the other
required operations are error-checked as the claim describes. -/
theorem C2_blocking_rdlock_unwrapped :
    (step 0 (Ev.acqReadBlocking EINVAL)).2.1 = StepOut.acquired
    ∧ ((API.map Prod.fst).contains "pthread_rwlock_rdlock") = false
    ∧ hasErrcheck "pthread_rwlock_rdlock" = false
    ∧ hasErrcheck "pthread_rwlock_wrlock" = true
    ∧ (step 0 (Ev.acqWriteBlocking EINVAL)).2.1 = StepOut.fatal EINVAL
    ∧ error_check EINVAL "pthread_rwlock_wrlock"
        = Except.error (EINVAL, "pthread_rwlock_wrlock") := by
  refine ⟨rfl, rfl, rfl, rfl, rfl, rfl⟩

/-! ### Theorem for C8 -/

/-- C8.  For every supported (OS, architecture) combination the lock
control block sits at byte offset 0 of the shared page and the
attribute control block immediately after it at offset
`lockBlockSize`, and the two blocks together fit inside one host page
(every supported host has pages of at least 4096 bytes). -/
theorem C8_layout (p : OSPlatform) (pageSize : Nat) (h : 4096 ≤ pageSize) :
    lockOffset = 0
    ∧ attrOffset p = lockBlockSize p
    ∧ lockBlockSize p + attrBlockSize p ≤ pageSize := by
  refine ⟨rfl, rfl, ?_⟩
  cases p <;> simp [lockBlockSize, attrBlockSize] <;> omega

/-- Witness for C8 at the Darwin platform (the largest blocks:
200 + 24 = 224 bytes) and a 4096-byte page. -/
theorem C8_witness :
    lockOffset = 0
    ∧ attrOffset OSPlatform.darwin = lockBlockSize OSPlatform.darwin
    ∧ lockBlockSize OSPlatform.darwin + attrBlockSize OSPlatform.darwin ≤ 4096 :=
  C8_layout OSPlatform.darwin 4096 (by decide)

/-! ### Theorem for C4 -/

/-- C4.  `nlocks` bookkeeping: a fresh lock has count 0; an acquire
reporting "acquired" adds exactly 1; an acquire reporting
"not acquired" leaves the count unchanged; a release that returns
normally subtracts exactly 1; release at count 0 raises ValueError
before touching the native lock (no native call is made and the count
is unchanged); hence the count stays nonnegative along every call
sequence from a fresh lock. -/
theorem C4_held_count :
    runEvents [] = 0
    ∧ (∀ (n : Int) (e : Ev),
        (step n e).2.1 = StepOut.acquired → (step n e).1 = n + 1)
    ∧ (∀ (n : Int) (e : Ev),
        (step n e).2.1 = StepOut.notAcquired → (step n e).1 = n)
    ∧ (∀ (n : Int) (e : Ev),
        (step n e).2.1 = StepOut.releasedOk → (step n e).1 = n - 1)
    ∧ (∀ ret : Nat, step 0 (Ev.rel ret) = (0, StepOut.invalidState, []))
    ∧ (∀ evs : List Ev, 0 ≤ runEvents evs) := by
  have hstep : ∀ (n : Int) (e : Ev),
      ((step n e).2.1 = StepOut.acquired → (step n e).1 = n + 1)
      ∧ ((step n e).2.1 = StepOut.notAcquired → (step n e).1 = n)
      ∧ ((step n e).2.1 = StepOut.releasedOk → (step n e).1 = n - 1) := by
    intro n e
    cases e with
    | acqReadBlocking ret => simp [step]
    | acqWriteBlocking ret =>
        simp only [step]
        cases callNative "pthread_rwlock_wrlock" ret with
        | ok v => simp
        | error p => cases p with | mk c s => simp
    | acqReadTimed res => cases res <;> simp [step]
    | acqWriteTimed res => cases res <;> simp [step]
    | rel ret =>
        simp only [step]
        by_cases hn : n = 0
        · simp [hn]
        · simp only [if_neg hn]
          cases callNative "pthread_rwlock_unlock" ret with
          | ok v => simp
          | error p => cases p with | mk c s => simp
  refine ⟨rfl, fun n e => (hstep n e).1, fun n e => (hstep n e).2.1,
    fun n e => (hstep n e).2.2, fun ret => by simp [step], ?_⟩
  intro evs
  exact foldl_step_nonneg evs 0 le_rfl

/-- Witness for C4 at concrete inputs: a timed read acquire on a lock
holding 5 goes to 6, a timed-out one stays at 5, and a release goes to
4. -/
theorem C4_witness :
    (step 5 (Ev.acqReadTimed TimedRes.ok)).1 = 5 + 1
    ∧ (step 5 (Ev.acqReadTimed TimedRes.timedOut)).1 = 5
    ∧ (step 5 (Ev.rel 0)).1 = 5 - 1 :=
  ⟨C4_held_count.2.1 5 (Ev.acqReadTimed TimedRes.ok) (by decide),
   C4_held_count.2.2.1 5 (Ev.acqReadTimed TimedRes.timedOut) (by decide),
   C4_held_count.2.2.2.1 5 (Ev.rel 0) (by decide)⟩

/-! ### Snapshot transfer (prwlock.py lines 279-292)

`__getstate__` returns the dict with keys `_fd`, `pid`, `nlocks`;
`__setstate__` re-runs `__setup` on the transferred descriptor, then
sets `self.pid` to the current process id and keeps the snapshot's
`nlocks` exactly when the current pid equals the snapshot pid,
resetting it to 0 otherwise. -/

structure Snapshot where
  fd : Nat
  pid : Nat
  nlocks : Int
  deriving DecidableEq, Repr

/-- `__getstate__` (lines 279-284). -/
def getstate (fd pid : Nat) (nlocks : Int) : Snapshot := ⟨fd, pid, nlocks⟩

/-- The bookkeeping part of `__setstate__` (lines 286-292): the
resulting (pid, nlocks) of the attached instance in a process whose id
is `currentPid`.  (The `__setup` attachment itself is modelled
separately below.) -/
def setstate (s : Snapshot) (currentPid : Nat) : Nat × Int :=
  (currentPid, if currentPid = s.pid then s.nlocks else 0)

/-- C5.  Attaching a transferred snapshot in a process with a different
pid yields `nlocks = 0` regardless of the recorded count; attaching in
a process with the same pid preserves the recorded count; in both
cases the resulting pid is the attaching process's pid. -/
theorem C5_setstate_pid (s : Snapshot) (currentPid : Nat) :
    (setstate s currentPid).1 = currentPid
    ∧ (currentPid ≠ s.pid → (setstate s currentPid).2 = 0)
    ∧ (currentPid = s.pid → (setstate s currentPid).2 = s.nlocks) := by
  refine ⟨rfl, fun h => ?_, fun h => ?_⟩
  · simp [setstate, h]
  · simp [setstate, h]

/-- Witness for C5: a snapshot recorded by pid 5 with 2 held locks,
attached by pid 7 (count resets to 0) and by pid 5 (count kept). -/
theorem C5_witness :
    (setstate (getstate 3 5 2) 7).1 = 7
    ∧ (setstate (getstate 3 5 2) 7).2 = 0
    ∧ (setstate (getstate 3 5 2) 5).2 = 2 :=
  ⟨(C5_setstate_pid (getstate 3 5 2) 7).1,
   (C5_setstate_pid (getstate 3 5 2) 7).2.1 (by decide),
   (C5_setstate_pid (getstate 3 5 2) 5).2.2 (by decide)⟩

/-! ### Teardown of a lock instance (prwlock.py lines 294-321)

`__del__` iterates over the attribute names `_lockattr`, `_lock`,
`_buf` in that textual order (line 310) and, for each one still set,
calls the matching `_del_lockattr` / `_del_lock` / `_del_buf`.  There
is no try/except around these calls: an exception raised by one of
them (e.g. `pthread_rwlockattr_destroy` returning an unexpected code
through the installed errcheck) propagates and the remaining
iterations, and the descriptor close, never run.  Only the final
`os.close(self._fd)` is wrapped in try/except OSError (lines 315-321).
(`_del_lock` additionally releases the `nlocks` still held before
destroying, lines 298-303; that detail is irrelevant to ordering and
guarding and is folded into the single `delLock` step.)

The model takes one flag per attribute saying whether it is still set,
and one flag per step saying whether that step raises; it returns the
list of cleanup steps attempted, in order, together with the step
whose exception escaped `__del__`, if any. -/

inductive DelStep where
  | delLockattr  -- _del_lockattr: destroy the attribute block (lines 294-296)
  | delLock      -- _del_lock: destroy the lock block (lines 298-303)
  | delBuf       -- _del_buf: close (unmap) the mapping (lines 305-307)
  | closeFd      -- os.close(self._fd) (lines 315-321)
  deriving DecidableEq, Repr

/-- `__del__` (lines 309-321).  Arguments: which of `_lockattr`,
`_lock`, `_buf`, `_fd` are present, then whether each of the four
cleanup steps raises.  Result: (steps attempted in order, step whose
exception escaped, if any).  An OSError from the descriptor close is
swallowed, so `closeFd` never escapes. -/
def del_run (hasLockattr hasLock hasBuf hasFd : Bool)
    (lockattrFails lockFails bufFails fdCloseFails : Bool) :
    List DelStep × Option DelStep :=
  let l1 := if hasLockattr then [DelStep.delLockattr] else []
  if hasLockattr && lockattrFails then (l1, some DelStep.delLockattr) else
  let l2 := l1 ++ (if hasLock then [DelStep.delLock] else [])
  if hasLock && lockFails then (l2, some DelStep.delLock) else
  let l3 := l2 ++ (if hasBuf then [DelStep.delBuf] else [])
  if hasBuf && bufFails then (l3, some DelStep.delBuf) else
  let l4 := l3 ++ (if hasFd then [DelStep.closeFd] else [])
  -- lines 315-321: a failure of os.close is caught and ignored
  let _ := fdCloseFails
  (l4, none)

/-- Counterexample for C3.  Tearing down a READY lock (all four
resources present) in which the very first cleanup raises: the step
that runs first is the attribute destroy, not the lock destroy, its
exception escapes `__del__` unswallowed, and the lock block, the
mapping and the descriptor get no cleanup attempt at all. -/
theorem C3_counterexample :
    del_run true true true true true false false false
      = ([DelStep.delLockattr], some DelStep.delLockattr)
    ∧ DelStep.delBuf ∉ (del_run true true true true true false false false).1
    ∧ DelStep.closeFd ∉ (del_run true true true true true false false false).1 := by
  refine ⟨rfl, by decide, by decide⟩

/-- C3 as amended.  During teardown of a READY lock the cleanup steps
run in the order destroy-attribute-block, destroy-lock-block, unmap,
close-descriptor; only the descriptor close is guarded (an OSError
there is swallowed), while a failure in any of the first three steps
escapes and skips every remaining step. -/
theorem C3_amended :
    ∀ aF lF bF fF : Bool,
      (aF = false → lF = false → bF = false →
        del_run true true true true aF lF bF fF
          = ([DelStep.delLockattr, DelStep.delLock, DelStep.delBuf,
              DelStep.closeFd], none))
      ∧ (aF = true →
        del_run true true true true aF lF bF fF
          = ([DelStep.delLockattr], some DelStep.delLockattr))
      ∧ (aF = false → lF = true →
        del_run true true true true aF lF bF fF
          = ([DelStep.delLockattr, DelStep.delLock], some DelStep.delLock))
      ∧ (aF = false → lF = false → bF = true →
        del_run true true true true aF lF bF fF
          = ([DelStep.delLockattr, DelStep.delLock, DelStep.delBuf],
             some DelStep.delBuf)) := by
  intro aF lF bF fF
  cases aF <;> cases lF <;> cases bF <;> cases fF <;>
    exact ⟨by decide, by decide, by decide, by decide⟩

/-- Witness for C3 as amended: a failure confined to the unmap step is
raised after the attribute and lock destroys ran, and the descriptor
close is skipped; a clean run attempts all four steps in order even
when the descriptor close itself fails. -/
theorem C3_amended_witness :
    del_run true true true true false false true false
      = ([DelStep.delLockattr, DelStep.delLock, DelStep.delBuf],
         some DelStep.delBuf)
    ∧ del_run true true true true false false false true
      = ([DelStep.delLockattr, DelStep.delLock, DelStep.delBuf,
          DelStep.closeFd], none) :=
  ⟨(C3_amended false false true false).2.2.2 rfl rfl rfl,
   (C3_amended false false false true).1 rfl rfl rfl⟩

/-! ### Construction and attachment (prwlock.py lines 174-253)

`__setup(_fd)` either attaches to a transferred descriptor or creates
a fresh one.  Two different tests control the flow.  The branch test
at line 179 is `if _fd:` — Python truthiness — so the attach path
(reuse the transferred descriptor, no mkstemp) is taken only when the
transferred descriptor is a nonzero integer; a descriptor equal to 0
falls into the create branch (mkstemp + zero-fill + mmap of the new
file).  But the later test at line 205 is `if _fd is None:` — identity
— so the three native initialization calls run only when `__setup` was
called with no descriptor at all: for a transferred descriptor equal
to 0 the code opens and maps a brand-new file yet skips
`pthread_rwlockattr_init`, `pthread_rwlockattr_setpshared` and
`pthread_rwlock_init` (the else branch at lines 215-219 merely points
`lockattr`/`lock` at the zeroed page).

Create branch steps: mkstemp (line 187), write one zero page
(line 188), mmap (line 193); then, only when `_fd is None`: attribute
init (line 207, after which the `lockattr` guard is set at line 208),
setpshared (line 209), lock init (line 213, after which the `lock`
guard is set at line 214).  Attach branch: mmap only; no native init
calls.  Nothing after the lock-init can raise (the remaining
statements are plain attribute assignments), so `lock` is never set at
a failure point.

On any failure the except branch (lines 228-253) unwinds: destroy the
lock if its guard is set, destroy the attribute if its guard is set,
close the mapping if set, close the descriptor — each wrapped in its
own try/except, so an unwind step's own failure cannot stop the later
steps — and re-raises the original exception.  The descriptor close at
line 248 is guarded by `if fd:`, again Python truthiness, so a
descriptor equal to 0 is never closed.

The model takes the `_fd` argument, the descriptor mkstemp would
return, the first executed step that raises (if any), and one flag per
unwind action saying whether that action itself fails; it returns
either the constructed state or the re-raised failing step together
with the unwind actions attempted (paired with their own failure
flag). -/

inductive SetupStep where
  | mkstempStep     -- tempfile.mkstemp() (line 187)
  | writeStep       -- os.write of one zero page (line 188)
  | mmapStep        -- mmap.mmap (line 193)
  | attrInitStep    -- pthread_rwlockattr_init (line 207)
  | setpsharedStep  -- pthread_rwlockattr_setpshared (line 209)
  | lockInitStep    -- pthread_rwlock_init (line 213)
  deriving DecidableEq, Repr

inductive UnwindAct where
  | destroyLock  -- pthread_rwlock_destroy (line 231)
  | destroyAttr  -- pthread_rwlockattr_destroy (line 238)
  | closeBuf     -- buf.close() (line 245)
  | closeFd      -- os.close(fd) (line 250)
  deriving DecidableEq, Repr

structure SetupOk where
  fd : Nat
  createdNewFile : Bool
  nativeInits : List String
  deriving DecidableEq, Repr

/-- The except-branch unwind (lines 228-253): attempts, in order,
destroy-lock / destroy-attribute / close-mapping for each guard that
is set, then the descriptor close when `fd` is truthy (nonzero).  Each
attempt carries its own failure flag; because every attempt sits in
its own try/except, a failing attempt is still recorded and the
sequence continues. -/
def unwind (lockSet lockattrSet bufSet : Bool) (fd : Option Nat)
    (uLock uAttr uBuf uFd : Bool) : List (UnwindAct × Bool) :=
  (if lockSet then [(UnwindAct.destroyLock, uLock)] else []) ++
  (if lockattrSet then [(UnwindAct.destroyAttr, uAttr)] else []) ++
  (if bufSet then [(UnwindAct.closeBuf, uBuf)] else []) ++
  (match fd with
   | some v => if v = 0 then [] else [(UnwindAct.closeFd, uFd)]
   | none => [])

/-- `__setup` (lines 174-253).  `attachFd` is the `_fd` argument
(`none` for a fresh construction), `newFd` the descriptor mkstemp
returns, `failAt` the first executed step that raises.  A `failAt`
naming a step the taken branch does not execute has no effect.  The
attach branch (line 179, truthiness) and the native-initialization
gate (line 205, `_fd is None`) are distinct tests: with `attachFd =
some 0` the create steps run but the init calls do not. -/
def setup (attachFd : Option Nat) (newFd : Nat) (failAt : Option SetupStep)
    (uLock uAttr uBuf uFd : Bool) :
    Except (SetupStep × List (UnwindAct × Bool)) SetupOk :=
  let isAttach : Bool := match attachFd with
    | some v => decide (v ≠ 0)  -- line 179: `if _fd:` truthiness
    | none => false
  if isAttach then
    if failAt = some SetupStep.mmapStep then
      Except.error (SetupStep.mmapStep,
        unwind false false false attachFd uLock uAttr uBuf uFd)
    else
      Except.ok ⟨attachFd.getD 0, false, []⟩
  else
    if failAt = some SetupStep.mkstempStep then
      -- no guard set, fd still None (line 177)
      Except.error (SetupStep.mkstempStep,
        unwind false false false none uLock uAttr uBuf uFd)
    else if failAt = some SetupStep.writeStep then
      Except.error (SetupStep.writeStep,
        unwind false false false (some newFd) uLock uAttr uBuf uFd)
    else if failAt = some SetupStep.mmapStep then
      Except.error (SetupStep.mmapStep,
        unwind false false false (some newFd) uLock uAttr uBuf uFd)
    else if attachFd = none then
      -- line 205: `if _fd is None:` — identity test, so the three
      -- native initialization calls run only on a true fresh
      -- construction
      if failAt = some SetupStep.attrInitStep then
        Except.error (SetupStep.attrInitStep,
          unwind false false true (some newFd) uLock uAttr uBuf uFd)
      else if failAt = some SetupStep.setpsharedStep then
        -- lockattr guard was set at line 208, before setpshared
        Except.error (SetupStep.setpsharedStep,
          unwind false true true (some newFd) uLock uAttr uBuf uFd)
      else if failAt = some SetupStep.lockInitStep then
        Except.error (SetupStep.lockInitStep,
          unwind false true true (some newFd) uLock uAttr uBuf uFd)
      else
        Except.ok ⟨newFd, true,
          ["pthread_rwlockattr_init", "pthread_rwlockattr_setpshared",
           "pthread_rwlock_init"]⟩
    else
      -- a transferred descriptor equal to 0: the create steps ran but
      -- lines 215-219 only point lockattr/lock at the zeroed page —
      -- no native initialization happens
      Except.ok ⟨newFd, true, []⟩

/-- Counterexample for C6.  A fresh construction in a process whose
lowest free descriptor is 0: mkstemp returns descriptor 0, the mmap
step then fails, and the unwind attempts nothing at all — in
particular it never reaches the descriptor close (the `if fd:` test at
line 248 is false for 0), so the opened descriptor leaks, against the
claim that the failure path always reaches the descriptor close. -/
theorem C6_counterexample :
    setup none 0 (some SetupStep.mmapStep) false false false false
      = Except.error (SetupStep.mmapStep, []) := rfl

/-- C6 as amended.  When fresh construction fails at any step, the
unwind attempts exactly the resources already acquired, in reverse
order of acquisition, re-raises the original failure, and every unwind
action is attempted regardless of the other actions' own failures; the
descriptor close is reached whenever the descriptor was opened with a
nonzero value (a descriptor equal to 0 is skipped by the truthiness
test at line 248). -/
theorem C6_amended (newFd : Nat) (h : newFd ≠ 0) (uLock uAttr uBuf uFd : Bool) :
    (setup none newFd (some SetupStep.mkstempStep) uLock uAttr uBuf uFd
       = Except.error (SetupStep.mkstempStep, []))
    ∧ (setup none newFd (some SetupStep.writeStep) uLock uAttr uBuf uFd
       = Except.error (SetupStep.writeStep, [(UnwindAct.closeFd, uFd)]))
    ∧ (setup none newFd (some SetupStep.mmapStep) uLock uAttr uBuf uFd
       = Except.error (SetupStep.mmapStep, [(UnwindAct.closeFd, uFd)]))
    ∧ (setup none newFd (some SetupStep.attrInitStep) uLock uAttr uBuf uFd
       = Except.error (SetupStep.attrInitStep,
           [(UnwindAct.closeBuf, uBuf), (UnwindAct.closeFd, uFd)]))
    ∧ (setup none newFd (some SetupStep.setpsharedStep) uLock uAttr uBuf uFd
       = Except.error (SetupStep.setpsharedStep,
           [(UnwindAct.destroyAttr, uAttr), (UnwindAct.closeBuf, uBuf),
            (UnwindAct.closeFd, uFd)]))
    ∧ (setup none newFd (some SetupStep.lockInitStep) uLock uAttr uBuf uFd
       = Except.error (SetupStep.lockInitStep,
           [(UnwindAct.destroyAttr, uAttr), (UnwindAct.closeBuf, uBuf),
            (UnwindAct.closeFd, uFd)])) := by
  refine ⟨?_, ?_, ?_, ?_, ?_, ?_⟩ <;> simp [setup, unwind, h]

/-- Witness for C6 as amended at descriptor 3 with every unwind action
itself failing: the setpshared failure still gets all three remaining
cleanup attempts, ending at the descriptor close. -/
theorem C6_amended_witness :
    setup none 3 (some SetupStep.setpsharedStep) true true true true
      = Except.error (SetupStep.setpsharedStep,
          [(UnwindAct.destroyAttr, true), (UnwindAct.closeBuf, true),
           (UnwindAct.closeFd, true)]) :=
  (C6_amended 3 (by decide) true true true true).2.2.2.2.1

/-- Counterexample for C10.  A clean `__setup` on a transferred
descriptor equal to 0 does open a new temporary file (the truthiness
test at line 179 sends it past the attach branch), but — against the
claim's "initializing a brand-new lock" — it performs none of the
three native initialization calls, because the gate at line 205 is the
identity test `_fd is None`, which is false for 0: the same call with
no descriptor at all runs all three. -/
theorem C10_counterexample :
    setup (some 0) 7 none false false false false
      = Except.ok ⟨7, true, []⟩
    ∧ setup none 7 none false false false false
      = Except.ok ⟨7, true,
          ["pthread_rwlockattr_init", "pthread_rwlockattr_setpshared",
           "pthread_rwlock_init"]⟩ :=
  ⟨rfl, rfl⟩

/-- C10 as amended.  A transferred snapshot whose descriptor is the
integer 0 does not take the attach path: setup falls into the create
branch, opening a new temporary file and mapping it instead of the
transferred descriptor, and those create steps (mkstemp, zero-fill
write, mmap) behave exactly as in a fresh construction; but because
line 205 tests `_fd is None` rather than truthiness, the three native
initialization calls are skipped and the new page is left zeroed and
uninitialized.  The construction-failure unwind likewise skips closing
a descriptor equal to 0. -/
theorem C10_amended :
    (∀ (newFd : Nat) (uLock uAttr uBuf uFd : Bool),
      setup (some 0) newFd none uLock uAttr uBuf uFd
        = Except.ok ⟨newFd, true, []⟩)
    ∧ (∀ (newFd : Nat) (uLock uAttr uBuf uFd : Bool),
      setup (some 0) newFd (some SetupStep.mkstempStep) uLock uAttr uBuf uFd
        = setup none newFd (some SetupStep.mkstempStep) uLock uAttr uBuf uFd
      ∧ setup (some 0) newFd (some SetupStep.writeStep) uLock uAttr uBuf uFd
        = setup none newFd (some SetupStep.writeStep) uLock uAttr uBuf uFd
      ∧ setup (some 0) newFd (some SetupStep.mmapStep) uLock uAttr uBuf uFd
        = setup none newFd (some SetupStep.mmapStep) uLock uAttr uBuf uFd)
    ∧ (∀ uLock uAttr uBuf uFd : Bool,
      setup (some 0) 0 (some SetupStep.mmapStep) uLock uAttr uBuf uFd
        = Except.error (SetupStep.mmapStep, [])) :=
  ⟨fun _ _ _ _ _ => rfl,
   fun _ _ _ _ _ => ⟨rfl, rfl, rfl⟩,
   fun _ _ _ _ => rfl⟩

/-! ### Emulated timeout path (prwlock.py lines 120-162)

On hosts without the native timed functions, `_timedrdlock` and
`_timedwrlock` (lines 143-150 and 152-159, identical but for which
native try function they call) poll: while `seconds > 0.0`, call the
non-blocking try-acquire; return True on a zero return; otherwise
sleep `SHORT_SLEEP = 0.1` and subtract 0.1 from the budget; return
False once the budget is exhausted.

The budget is modelled as an exact rational.  The outcome of the k-th
try-acquire call is supplied by `tryOk`; the loop is written with a
fuel argument for structural recursion (any fuel at least the number
of iterations gives the loop's value; the claims proved below concern
nonpositive budgets, where no iteration runs for every fuel).  The
result pairs the returned Boolean with the number of try-acquire
attempts made. -/

def emulatedTimedlock (tryOk : Nat → Bool) : Nat → Nat → ℚ → Bool × Nat
  | 0, _, _ => (false, 0)
  | fuel + 1, k, s =>
    if 0 < s then
      if tryOk k then (true, 1)
      else
        let r := emulatedTimedlock tryOk fuel (k + 1) (s - 1/10)
        (r.1, r.2 + 1)
    else (false, 0)

theorem emulatedTimedlock_nonpos (tryOk : Nat → Bool) (fuel k : Nat) (s : ℚ)
    (h : s ≤ 0) : emulatedTimedlock tryOk fuel k s = (false, 0) := by
  cases fuel with
  | zero => rfl
  | succ f =>
      simp only [emulatedTimedlock]
      rw [if_neg (not_lt.mpr h)]

/-- `acquire_read(timeout=s)` on the emulated path (lines 255-261 with
`timed_rdlock = _timedrdlock`): returns False leaving `nlocks` alone
when the poll loop fails, otherwise increments `nlocks` and returns
True. -/
def acquire_read_emulated (tryOk : Nat → Bool) (fuel : Nat) (s : ℚ)
    (nlocks : Int) : Int × Bool :=
  if (emulatedTimedlock tryOk fuel 0 s).1 then (nlocks + 1, true)
  else (nlocks, false)

/-- `acquire_write(timeout=s)` on the emulated path (lines 263-269 with
`timed_wrlock = _timedwrlock`). -/
def acquire_write_emulated (tryOk : Nat → Bool) (fuel : Nat) (s : ℚ)
    (nlocks : Int) : Int × Bool :=
  if (emulatedTimedlock tryOk fuel 0 s).1 then (nlocks + 1, true)
  else (nlocks, false)

/-! ### Theorem for C9 -/

/-- C9.  On the emulated path, any timeout less than or equal to 0
(0 included) makes a timed acquire — read or write — return "not
acquired" with zero try-acquire attempts and `nlocks` untouched, no
matter what the try-acquire calls would have returned (in particular
even when the lock is free and the first try would succeed). -/
theorem C9_zero_timeout (tryOk : Nat → Bool) (fuel : Nat) (s : ℚ)
    (nlocks : Int) (h : s ≤ 0) :
    acquire_read_emulated tryOk fuel s nlocks = (nlocks, false)
    ∧ acquire_write_emulated tryOk fuel s nlocks = (nlocks, false)
    ∧ (emulatedTimedlock tryOk fuel 0 s).2 = 0 := by
  have hloop := emulatedTimedlock_nonpos tryOk fuel 0 s h
  refine ⟨?_, ?_, ?_⟩
  · simp [acquire_read_emulated, hloop]
  · simp [acquire_write_emulated, hloop]
  · simp [hloop]

/-- Witness for C9: timeout exactly 0, a free lock (every try-acquire
would succeed), 4 locks already held: the acquire reports "not
acquired", makes no attempt, and the count stays 4. -/
theorem C9_witness :
    acquire_read_emulated (fun _ => true) 3 0 4 = (4, false)
    ∧ acquire_write_emulated (fun _ => true) 3 0 4 = (4, false)
    ∧ (emulatedTimedlock (fun _ => true) 3 0 0).2 = 0 :=
  C9_zero_timeout (fun _ => true) 3 0 4 (by norm_num)

end PRWLock
